import Mathlib

/-!
Verification of the Pulumi Kubernetes operator stack-reconciliation core
(`pkg/apis/pulumi/v1alpha1/stack_types.go`), as a shallow embedding in Lean 4.

The source file is schema-only: it declares the data types (`StackSpec`,
`ResourceRef` and its selectors, `StackStatus`, `StackUpdateState`, the
`StackUpdateStatus` codes, `StackUpdateStateMessage`) and the
`StackController` interface, but not the controller implementation.
Types and constructor functions below are translated directly from that
file; behavioral operations (classification, retry loop, status recording,
config merge, source preparation, resolution) are modelled from the spec,
each marked `Modelled from the spec:` in its doc comment.

Representation choices: Go `string` becomes `String`; Go `int` becomes
`Int`; Go pointers/optional fields become `Option`; Go maps become
association lists or `String → Option String`; the opaque
`apiextensionsv1.JSON` values become `String`.
-/

namespace PulumiOperator

/-- `ResourceSelectorType` identifies the type of the resource reference
(Go: `type ResourceSelectorType string`). -/
abbrev ResourceSelectorType := String

/-- `ResourceSelectorEnv` indicates the resource is an environment variable. -/
def ResourceSelectorEnv : ResourceSelectorType := "Env"

/-- `ResourceSelectorFS` indicates the resource is on the filesystem. -/
def ResourceSelectorFS : ResourceSelectorType := "FS"

/-- `ResourceSelectorSecret` indicates the resource is a Kubernetes secret. -/
def ResourceSelectorSecret : ResourceSelectorType := "Secret"

/-- `ResourceSelectorLiteral` indicates the resource is a literal. -/
def ResourceSelectorLiteral : ResourceSelectorType := "Literal"

/-- `FSSelector` identifies the path to load information from. -/
structure FSSelector where
  Path : String
deriving DecidableEq, Repr

/-- `EnvSelector` identifies the environment variable to load information from. -/
structure EnvSelector where
  Name : String
deriving DecidableEq, Repr

/-- `SecretSelector` identifies the information to load from a Kubernetes
secret; the namespace defaults to `default` if omitted. -/
structure SecretSelector where
  Namespace : String
  Name : String
  Key : String
deriving DecidableEq, Repr

/-- `LiteralRef` identifies a literal value to load. -/
structure LiteralRef where
  Value : String
deriving DecidableEq, Repr

/-- `ResourceSelector` is a union over resource selectors: one of
filesystem, environment variable, Kubernetes Secret and literal value.
Go represents each variant as an optional pointer field. -/
structure ResourceSelector where
  FileSystem : Option FSSelector
  Env : Option EnvSelector
  SecretRef : Option SecretSelector
  LiteralRef : Option PulumiOperator.LiteralRef
deriving DecidableEq, Repr

/-- `ResourceRef` identifies a resource from which information can be
loaded: a required discriminant `SelectorType` plus the (Go-embedded)
`ResourceSelector` payload. -/
structure ResourceRef where
  SelectorType : ResourceSelectorType
  resourceSelector : ResourceSelector
deriving DecidableEq, Repr

/-- `NewEnvResourceRef` creates a new environment variable resource ref. -/
def NewEnvResourceRef (envVarName : String) : ResourceRef :=
  { SelectorType := ResourceSelectorEnv
    resourceSelector :=
      { FileSystem := none
        Env := some { Name := envVarName }
        SecretRef := none
        LiteralRef := none } }

/-- `NewFileSystemResourceRef` creates a new file system resource ref. -/
def NewFileSystemResourceRef (path : String) : ResourceRef :=
  { SelectorType := ResourceSelectorFS
    resourceSelector :=
      { FileSystem := some { Path := path }
        Env := none
        SecretRef := none
        LiteralRef := none } }

/-- `NewSecretResourceRef` creates a new secret resource ref. -/
def NewSecretResourceRef (ns name key : String) : ResourceRef :=
  { SelectorType := ResourceSelectorSecret
    resourceSelector :=
      { FileSystem := none
        Env := none
        SecretRef := some { Namespace := ns, Name := name, Key := key }
        LiteralRef := none } }

/-- `NewLiteralResourceRef` creates a new literal resource ref. -/
def NewLiteralResourceRef (value : String) : ResourceRef :=
  { SelectorType := ResourceSelectorLiteral
    resourceSelector :=
      { FileSystem := none
        Env := none
        SecretRef := none
        LiteralRef := some { Value := value } }}

/-- Number of populated (non-nil) variant payloads in a `ResourceSelector`. -/
def populatedCount (s : ResourceSelector) : Nat :=
  (if s.FileSystem.isSome then 1 else 0) +
  (if s.Env.isSome then 1 else 0) +
  (if s.SecretRef.isSome then 1 else 0) +
  (if s.LiteralRef.isSome then 1 else 0)

/-- Whether a `ResourceRef`'s discriminant names the populated variant. -/
def discriminantMatches (r : ResourceRef) : Bool :=
  if r.SelectorType = ResourceSelectorEnv then r.resourceSelector.Env.isSome
  else if r.SelectorType = ResourceSelectorFS then r.resourceSelector.FileSystem.isSome
  else if r.SelectorType = ResourceSelectorSecret then r.resourceSelector.SecretRef.isSome
  else if r.SelectorType = ResourceSelectorLiteral then r.resourceSelector.LiteralRef.isSome
  else false

/-- `StackUpdateStatus` is the status code for the result of a Stack Update
run (Go: `type StackUpdateStatus int`). -/
abbrev StackUpdateStatus := Int

/-- `StackUpdateSucceeded` indicates that the stack update completed
successfully. -/
def StackUpdateSucceeded : StackUpdateStatus := 0

/-- `StackUpdateFailed` indicates that the stack update failed to complete. -/
def StackUpdateFailed : StackUpdateStatus := 1

/-- `StackUpdateConflict` indicates that the stack update failed to complete
due to a conflicting stack update run that is in progress. -/
def StackUpdateConflict : StackUpdateStatus := 2

/-- `StackUpdatePendingOperations` indicates that the stack update failed to
complete due to pending operations halting the stack update run. -/
def StackUpdatePendingOperations : StackUpdateStatus := 3

/-- `StackNotFound` indicates that the stack update failed to complete due
to the stack not being found (HTTP 404) in the Pulumi Service. -/
def StackNotFound : StackUpdateStatus := 4

/-- The Go zero value of the integer type `StackUpdateStatus`. -/
def stackUpdateStatusZeroValue : StackUpdateStatus := 0

/-- `StackUpdateStateMessage` is the persisted state string
(Go: `type StackUpdateStateMessage string`). -/
abbrev StackUpdateStateMessage := String

/-- `SucceededStackStateMessage` indicates success in stack status state. -/
def SucceededStackStateMessage : StackUpdateStateMessage := "succeeded"

/-- `FailedStackStateMessage` indicates stack failure in stack status state. -/
def FailedStackStateMessage : StackUpdateStateMessage := "failed"

/-- `Permalink` is the Pulumi Service URL of the stack operation. -/
abbrev Permalink := String

/-- `StackOutputs` maps output names to opaque structured values
(`apiextensionsv1.JSON`, modelled as `String`). -/
abbrev StackOutputs := List (String × String)

/-- `StackUpdateState` is the status of a stack update. -/
structure StackUpdateState where
  State : StackUpdateStateMessage
  LastAttemptedCommit : String
  LastSuccessfulCommit : String
  Permalink : Permalink
deriving DecidableEq, Repr

/-- `StackStatus` defines the observed state of a Stack. -/
structure StackStatus where
  Outputs : StackOutputs
  LastUpdate : Option StackUpdateState
deriving DecidableEq, Repr

/-- `StackSpec` defines the desired state of the Pulumi Stack being managed
by this operator. Maps become association lists. -/
structure StackSpec where
  AccessTokenSecret : String
  Envs : List String
  EnvRefs : List (String × ResourceRef)
  SecretEnvs : List String
  Backend : String
  Stack : String
  Config : List (String × String)
  Secrets : List (String × String)
  SecretRefs : List (String × ResourceRef)
  SecretsProvider : String
  ProjectRepo : String
  GitAuthSecret : String
  RepoDir : String
  Commit : String
  Branch : String
  Refresh : Bool
  ExpectNoRefreshChanges : Bool
  DestroyOnFinalize : Bool
  RetryOnUpdateConflict : Bool
deriving DecidableEq, Repr

/-- Modelled from the spec: the classified error an external engine call may
return. The `StackController` implementation that interprets raw engine
responses is not part of the schema-only source file; §4.4 of the spec gives
the taxonomy — HTTP-style status codes (409 conflict, 404 not found), a
pending-operations signal, or any other error. -/
inductive EngineError where
  | http (code : Nat)
  | pendingOperations
  | other (msg : String)
deriving DecidableEq, Repr

/-- Modelled from the spec: classification of the engine's response to an
update attempt (`StackController.UpdateStack` is declared, not implemented,
in the source). Per §4.4 step 5: HTTP 409 → conflict, pending-operations →
pendingOperations, HTTP 404 → notFound, any other error → failed, no
error → succeeded. -/
def classifyUpdate : Option EngineError → StackUpdateStatus
  | none => StackUpdateSucceeded
  | some .pendingOperations => StackUpdatePendingOperations
  | some (.other _) => StackUpdateFailed
  | some (.http code) =>
    if code = 409 then StackUpdateConflict
    else if code = 404 then StackNotFound
    else StackUpdateFailed

/-- Modelled from the spec: one update call against the engine, returning
the classification together with the extracted outputs; outputs are
extracted exactly when there is no error (§4.4 step 5: "No error →
succeeded, and outputs are extracted"). -/
def runUpdate (resp : Option EngineError) (outs : StackOutputs) :
    StackUpdateStatus × Option StackOutputs :=
  (classifyUpdate resp,
   match resp with
   | none => some outs
   | some _ => none)

/-- Modelled from the spec: the reconcile retry loop (§4.4 step 6), whose
implementation is not in the schema-only source. The engine is a script of
responses, one per attempt; the loop performs a fresh attempt after the
previous one exactly when that attempt classified as `conflict` and the
spec's `RetryOnUpdateConflict` flag is set; every other classification is
surfaced without a local retry. Returns the list of attempt
classifications that were performed. -/
def reconcileAttempts (retry : Bool) : List (Option EngineError) → List StackUpdateStatus
  | [] => []
  | r :: rs =>
    let s := classifyUpdate r
    if s = StackUpdateConflict ∧ retry = true then s :: reconcileAttempts retry rs
    else [s]

/-- Modelled from the spec: the retry loop driven by a `StackSpec`'s
`RetryOnUpdateConflict` flag. -/
def reconcileStack (s : StackSpec) (script : List (Option EngineError)) :
    List StackUpdateStatus :=
  reconcileAttempts s.RetryOnUpdateConflict script

/-- Modelled from the spec: the Status Recorder (§4.5), not present in the
schema-only source. Converts a terminal attempt classification into the
persisted `StackUpdateState`: the state string is `succeeded` or `failed`,
`LastAttemptedCommit` is always the attempt's commit, and
`LastSuccessfulCommit` advances to that commit only when the attempt
succeeded, staying at the previous value otherwise. -/
def recordUpdate (prev : StackUpdateState) (attemptCommit : String)
    (status : StackUpdateStatus) (permalink : Permalink) : StackUpdateState :=
  { State :=
      if status = StackUpdateSucceeded then SucceededStackStateMessage
      else FailedStackStateMessage
    LastAttemptedCommit := attemptCommit
    LastSuccessfulCommit :=
      if status = StackUpdateSucceeded then attemptCommit
      else prev.LastSuccessfulCommit
    Permalink := permalink }

/-- Modelled from the spec: the engine-side observations of one reconcile
attempt — outcomes of dependency install, environment population and config
application, whether the refresh reports changes, the refresh error if any,
and the update call's response and outputs. The concrete
`StackController` implementation is not in the schema-only source. -/
structure EngineRun where
  installError : Option String
  envError : Option String
  configError : Option String
  refreshError : Option String
  refreshChanges : Bool
  updateResponse : Option EngineError
  updateOutputs : StackOutputs
deriving DecidableEq, Repr

/-- Modelled from the spec: the observable result of one lifecycle attempt —
terminal classification, whether the failure was the distinct refresh-drift
classification, whether `UpdateStack` was invoked, and the extracted
outputs if any. -/
structure AttemptResult where
  status : StackUpdateStatus
  refreshDrift : Bool
  updateCalled : Bool
  outputs : Option StackOutputs
deriving DecidableEq, Repr

/-- Modelled from the spec: one run of the Lifecycle Controller state
machine (§4.4), absent from the schema-only source. Steps: dependency
install, environment population and config application (each fatal on
failure, reported `failed`); if `Refresh` is set, a refresh runs, and when
`ExpectNoRefreshChanges` is set and the refresh reports changes the attempt
fails immediately with the refresh-drift classification, without invoking
the update; otherwise the update runs and its response is classified. -/
def runAttempt (spec : StackSpec) (eng : EngineRun) : AttemptResult :=
  match eng.installError with
  | some _ => ⟨StackUpdateFailed, false, false, none⟩
  | none =>
  match eng.envError with
  | some _ => ⟨StackUpdateFailed, false, false, none⟩
  | none =>
  match eng.configError with
  | some _ => ⟨StackUpdateFailed, false, false, none⟩
  | none =>
  if spec.Refresh then
    match eng.refreshError with
    | some _ => ⟨StackUpdateFailed, false, false, none⟩
    | none =>
      if spec.ExpectNoRefreshChanges ∧ eng.refreshChanges then
        ⟨StackUpdateFailed, true, false, none⟩
      else
        let (st, outs) := runUpdate eng.updateResponse eng.updateOutputs
        ⟨st, false, true, outs⟩
  else
    let (st, outs) := runUpdate eng.updateResponse eng.updateOutputs
    ⟨st, false, true, outs⟩

/-- Modelled from the spec: errors of the Source Preparer (§4.3), which is
not in the schema-only source. -/
inductive PrepareError where
  | configError
  | authError
  | sourceError
deriving DecidableEq, Repr

/-- Modelled from the spec: the revision a source checkout targets. -/
inductive Revision where
  | branch (name : String)
  | commit (sha : String)
deriving DecidableEq, Repr

/-- Modelled from the spec: revision selection of the Source Preparer
(§4.3), not present in the schema-only source. Branch and commit are
mutually exclusive (`ConfigError` when both set); exactly one set uses that
revision; both absent falls back to the default `master` branch (the
source's field comments: "If both are empty, the `master` branch is
deployed"). -/
def chooseRevision (s : StackSpec) : Except PrepareError Revision :=
  if s.Branch ≠ "" ∧ s.Commit ≠ "" then .error .configError
  else if s.Commit ≠ "" then .ok (.commit s.Commit)
  else if s.Branch ≠ "" then .ok (.branch s.Branch)
  else .ok (.branch "master")

/-- Modelled from the spec: whether the Source Preparer proceeds to attempt
a checkout; on `ConfigError` preparation is not attempted. -/
def checkoutAttempted (s : StackSpec) : Bool :=
  match chooseRevision s with
  | .ok _ => true
  | .error _ => false

/-- Effective configuration for a run, as a partial map from keys to
values. -/
abbrev ConfigMap := String → Option String

/-- Association-list view of a config source, as the Go maps are written in
the spec's examples. -/
def ConfigMap.ofList (l : List (String × String)) : ConfigMap :=
  fun k => (l.find? (fun p => p.1 == k)).map Prod.snd

/-- Modelled from the spec: one precedence step of the Config Merger
(§4.2) — a key present in the overlay overrides the base value for the
same key. -/
def overrideWith (base overlay : ConfigMap) : ConfigMap :=
  fun k =>
    match overlay k with
    | some v => some v
    | none => base k

/-- Modelled from the spec: the Config Merger (§4.2;
`StackController.UpdateConfig` is declared, not implemented, in the
source). Sources are applied lowest-to-highest precedence: checked-in
config, then legacy inline secrets/config maps, then reference-resolved
maps. -/
def mergeConfig (checkedIn legacy refs : ConfigMap) : ConfigMap :=
  overrideWith (overrideWith checkedIn legacy) refs

/-- Modelled from the spec: errors of the Resource Resolver (§4.1), whose
implementation is not in the schema-only source. -/
inductive ResolveError where
  | notFound
  | ioError
  | accessDenied
  | configError
deriving DecidableEq, Repr

/-- Modelled from the spec: the backends a `ResourceRef` resolution reads —
process environment, filesystem, and the namespaced secret store
(namespace, name, key). `none` means the entry is absent. -/
structure Backends where
  env : String → Option String
  fs : String → Option String
  secret : String → String → String → Option String

/-- Modelled from the spec: `resolve(ref) -> (string, error)` (§4.1), not
present in the schema-only source. Dispatches on the discriminant:
literal returns the embedded value and never fails; environment and secret
lookups fail with `notFound` on an absent entry; filesystem reads fail
with `ioError` on a missing file; a ref whose discriminant does not match
a populated payload is malformed (`configError`). -/
def resolveResourceRef (b : Backends) (r : ResourceRef) : Except ResolveError String :=
  if r.SelectorType = ResourceSelectorLiteral then
    match r.resourceSelector.LiteralRef with
    | some l => .ok l.Value
    | none => .error .configError
  else if r.SelectorType = ResourceSelectorEnv then
    match r.resourceSelector.Env with
    | some e =>
      match b.env e.Name with
      | some v => .ok v
      | none => .error .notFound
    | none => .error .configError
  else if r.SelectorType = ResourceSelectorFS then
    match r.resourceSelector.FileSystem with
    | some f =>
      match b.fs f.Path with
      | some v => .ok v
      | none => .error .ioError
    | none => .error .configError
  else if r.SelectorType = ResourceSelectorSecret then
    match r.resourceSelector.SecretRef with
    | some s =>
      match b.secret s.Namespace s.Name s.Key with
      | some v => .ok v
      | none => .error .notFound
    | none => .error .configError
  else .error .configError

/-- A one-attempt reconcile script never produces an empty attempt list. -/
theorem reconcileAttempts_length_pos (retry : Bool) (r : Option EngineError)
    (rs : List (Option EngineError)) :
    0 < (reconcileAttempts retry (r :: rs)).length := by
  unfold reconcileAttempts
  by_cases h : classifyUpdate r = StackUpdateConflict ∧ retry = true <;> simp [h]

/-- C10: the five `StackUpdateStatus` codes are the pairwise distinct
integers 0 through 4, and the zero value of the type (a default-initialized
status) is `StackUpdateSucceeded`. -/
theorem claim_C10_status_codes_distinct_zero_is_succeeded :
    StackUpdateSucceeded = 0 ∧ StackUpdateFailed = 1 ∧ StackUpdateConflict = 2 ∧
    StackUpdatePendingOperations = 3 ∧ StackNotFound = 4 ∧
    StackUpdateSucceeded ≠ StackUpdateFailed ∧
    StackUpdateSucceeded ≠ StackUpdateConflict ∧
    StackUpdateSucceeded ≠ StackUpdatePendingOperations ∧
    StackUpdateSucceeded ≠ StackNotFound ∧
    StackUpdateFailed ≠ StackUpdateConflict ∧
    StackUpdateFailed ≠ StackUpdatePendingOperations ∧
    StackUpdateFailed ≠ StackNotFound ∧
    StackUpdateConflict ≠ StackUpdatePendingOperations ∧
    StackUpdateConflict ≠ StackNotFound ∧
    StackUpdatePendingOperations ≠ StackNotFound ∧
    stackUpdateStatusZeroValue = StackUpdateSucceeded := by
  refine ⟨rfl, rfl, rfl, rfl, rfl, ?_⟩
  decide

/-- C8: each of the four `ResourceRef` constructors populates exactly one
of the four `ResourceSelector` pointer fields, and the `SelectorType`
discriminant matches the populated variant. -/
theorem claim_C8_constructors_populate_exactly_one_matching_variant
    (e p ns nm k v : String) :
    (populatedCount (NewEnvResourceRef e).resourceSelector = 1 ∧
      discriminantMatches (NewEnvResourceRef e) = true) ∧
    (populatedCount (NewFileSystemResourceRef p).resourceSelector = 1 ∧
      discriminantMatches (NewFileSystemResourceRef p) = true) ∧
    (populatedCount (NewSecretResourceRef ns nm k).resourceSelector = 1 ∧
      discriminantMatches (NewSecretResourceRef ns nm k) = true) ∧
    (populatedCount (NewLiteralResourceRef v).resourceSelector = 1 ∧
      discriminantMatches (NewLiteralResourceRef v) = true) := by
  refine ⟨⟨rfl, ?_⟩, ⟨rfl, ?_⟩, ⟨rfl, ?_⟩, ⟨rfl, ?_⟩⟩ <;>
    simp [NewEnvResourceRef, NewFileSystemResourceRef, NewSecretResourceRef,
      NewLiteralResourceRef, discriminantMatches, ResourceSelectorEnv,
      ResourceSelectorFS, ResourceSelectorSecret, ResourceSelectorLiteral]

/-- C3: the recorded `StackUpdateState` always carries the attempt's commit
in `LastAttemptedCommit`, advances `LastSuccessfulCommit` to that commit
only on a succeeded attempt and keeps the previous value on every other
terminal state; concretely, from `{lastSuccessfulCommit: "abc", state:
succeeded}`, a failed attempt at commit `"def"` yields
`{lastSuccessfulCommit: "abc", lastAttemptedCommit: "def", state: failed}`. -/
theorem claim_C3_commit_tracking :
    (∀ (prev : StackUpdateState) (c : String) (st : StackUpdateStatus) (p : Permalink),
        (recordUpdate prev c st p).LastAttemptedCommit = c ∧
        (recordUpdate prev c st p).LastSuccessfulCommit =
          (if st = StackUpdateSucceeded then c else prev.LastSuccessfulCommit)) ∧
    recordUpdate
        { State := SucceededStackStateMessage, LastAttemptedCommit := "abc",
          LastSuccessfulCommit := "abc", Permalink := "" }
        "def" StackUpdateFailed "" =
      { State := FailedStackStateMessage, LastAttemptedCommit := "def",
        LastSuccessfulCommit := "abc", Permalink := "" } := by
  refine ⟨fun prev c st p => ⟨rfl, rfl⟩, ?_⟩
  simp [recordUpdate, StackUpdateFailed, StackUpdateSucceeded]

/-- Counterexample for C5: the persisted state string does not distinguish
the five terminal classifications — a `conflict` attempt and a `failed`
attempt record the same `State`, although the classifications differ. -/
theorem claim_C5_counterexample :
    (recordUpdate
        { State := SucceededStackStateMessage, LastAttemptedCommit := "abc",
          LastSuccessfulCommit := "abc", Permalink := "" }
        "def" StackUpdateConflict "link").State =
      (recordUpdate
        { State := SucceededStackStateMessage, LastAttemptedCommit := "abc",
          LastSuccessfulCommit := "abc", Permalink := "" }
        "def" StackUpdateFailed "link").State ∧
    StackUpdateConflict ≠ StackUpdateFailed := by
  constructor
  · rfl
  · decide

/-- C5 (amended): the persisted `State` ranges over exactly the two values
`succeeded` and `failed`, and records precisely whether the most recent
attempt's classification was `succeeded`; the four non-success
classifications are all recorded as `failed` and are not distinguished by
the persisted state field. -/
theorem claim_C5_state_reflects_success_only
    (prev : StackUpdateState) (c : String) (st : StackUpdateStatus) (p : Permalink) :
    ((recordUpdate prev c st p).State = SucceededStackStateMessage ∨
      (recordUpdate prev c st p).State = FailedStackStateMessage) ∧
    ((recordUpdate prev c st p).State = SucceededStackStateMessage ↔
      st = StackUpdateSucceeded) := by
  unfold recordUpdate
  by_cases h : st = StackUpdateSucceeded <;>
    simp [h, SucceededStackStateMessage, FailedStackStateMessage]

/-- Unfolding of one step of the retry loop. -/
theorem reconcileAttempts_cons (retry : Bool) (r : Option EngineError)
    (rs : List (Option EngineError)) :
    reconcileAttempts retry (r :: rs) =
      if classifyUpdate r = StackUpdateConflict ∧ retry = true
      then classifyUpdate r :: reconcileAttempts retry rs
      else [classifyUpdate r] :=
  rfl

/-- C1: classification of the engine's update response is exhaustive over
the five `StackUpdateStatus` outcomes and mutually exclusive: HTTP 409
yields `StackUpdateConflict`, a pending-operations signal yields
`StackUpdatePendingOperations`, HTTP 404 yields `StackNotFound`, `failed`
is exactly every remaining error, no error yields `StackUpdateSucceeded`,
and outputs are extracted exactly on success. -/
theorem claim_C1_classification_exhaustive_exclusive
    (resp : Option EngineError) (outs : StackOutputs) :
    (classifyUpdate resp = StackUpdateSucceeded ∨ classifyUpdate resp = StackUpdateFailed ∨
      classifyUpdate resp = StackUpdateConflict ∨
      classifyUpdate resp = StackUpdatePendingOperations ∨
      classifyUpdate resp = StackNotFound) ∧
    (classifyUpdate resp = StackUpdateConflict ↔ resp = some (.http 409)) ∧
    (classifyUpdate resp = StackUpdatePendingOperations ↔ resp = some .pendingOperations) ∧
    (classifyUpdate resp = StackNotFound ↔ resp = some (.http 404)) ∧
    (classifyUpdate resp = StackUpdateSucceeded ↔ resp = none) ∧
    (classifyUpdate resp = StackUpdateFailed ↔
      resp ≠ none ∧ resp ≠ some (.http 409) ∧ resp ≠ some .pendingOperations ∧
        resp ≠ some (.http 404)) ∧
    ((runUpdate resp outs).2 = some outs ↔ classifyUpdate resp = StackUpdateSucceeded) ∧
    (runUpdate resp outs).1 = classifyUpdate resp := by
  rcases resp with _ | e
  · simp [classifyUpdate, runUpdate, StackUpdateSucceeded, StackUpdateFailed,
      StackUpdateConflict, StackUpdatePendingOperations, StackNotFound]
  · rcases e with c | _ | m
    · by_cases h409 : c = 409
      · subst h409
        simp [classifyUpdate, runUpdate, StackUpdateSucceeded, StackUpdateFailed,
          StackUpdateConflict, StackUpdatePendingOperations, StackNotFound]
      · by_cases h404 : c = 404
        · subst h404
          simp [classifyUpdate, runUpdate, StackUpdateSucceeded, StackUpdateFailed,
            StackUpdateConflict, StackUpdatePendingOperations, StackNotFound]
        · simp [classifyUpdate, runUpdate, h409, h404, StackUpdateSucceeded,
            StackUpdateFailed, StackUpdateConflict, StackUpdatePendingOperations,
            StackNotFound]
    · simp [classifyUpdate, runUpdate, StackUpdateSucceeded, StackUpdateFailed,
        StackUpdateConflict, StackUpdatePendingOperations, StackNotFound]
    · simp [classifyUpdate, runUpdate, StackUpdateSucceeded, StackUpdateFailed,
        StackUpdateConflict, StackUpdatePendingOperations, StackNotFound]

/-- C2: a second reconcile attempt starts iff the previous attempt
classified as `conflict` and the spec's `RetryOnUpdateConflict` flag is
true; with the flag false a conflict is terminal after one attempt; with
the flag true an engine returning conflict, conflict, success yields
exactly three attempts ending in `succeeded`; pending-operations,
not-found and failed never trigger a local retry. -/
theorem claim_C2_retry_iff_conflict_and_flag :
    (∀ (s : StackSpec) (r₁ r₂ : Option EngineError) (rs : List (Option EngineError)),
        2 ≤ (reconcileStack s (r₁ :: r₂ :: rs)).length ↔
          classifyUpdate r₁ = StackUpdateConflict ∧ s.RetryOnUpdateConflict = true) ∧
    (∀ (s : StackSpec) (rs : List (Option EngineError)),
        s.RetryOnUpdateConflict = false →
          reconcileStack s (some (.http 409) :: rs) = [StackUpdateConflict]) ∧
    (∀ (s : StackSpec),
        s.RetryOnUpdateConflict = true →
          reconcileStack s [some (.http 409), some (.http 409), none] =
            [StackUpdateConflict, StackUpdateConflict, StackUpdateSucceeded]) ∧
    (∀ (s : StackSpec) (rs : List (Option EngineError)) (msg : String),
        reconcileStack s (some .pendingOperations :: rs) = [StackUpdatePendingOperations] ∧
        reconcileStack s (some (.http 404) :: rs) = [StackNotFound] ∧
        reconcileStack s (some (.other msg) :: rs) = [StackUpdateFailed]) := by
  refine ⟨?_, ?_, ?_, ?_⟩
  · intro s r₁ r₂ rs
    simp only [reconcileStack, reconcileAttempts_cons]
    by_cases h : classifyUpdate r₁ = StackUpdateConflict ∧ s.RetryOnUpdateConflict = true
    · rw [if_pos h]
      have hpos := reconcileAttempts_length_pos s.RetryOnUpdateConflict r₂ rs
      simp only [List.length_cons]
      constructor
      · intro _; exact h
      · intro _; exact Nat.succ_le_succ hpos
    · rw [if_neg h]
      simp [h]
  · intro s rs hflag
    simp [reconcileStack, reconcileAttempts, classifyUpdate, hflag]
  · intro s hflag
    simp [reconcileStack, reconcileAttempts, classifyUpdate, hflag,
      StackUpdateConflict, StackUpdateSucceeded]
  · intro s rs msg
    refine ⟨?_, ?_, ?_⟩ <;>
      simp [reconcileStack, reconcileAttempts, classifyUpdate,
        StackUpdatePendingOperations, StackUpdateConflict, StackNotFound,
        StackUpdateFailed]

/-- A concrete well-formed `StackSpec` used to instantiate the universally
quantified theorems at specific inputs. -/
def exampleSpecBase : StackSpec :=
  { AccessTokenSecret := ""
    Envs := []
    EnvRefs := []
    SecretEnvs := []
    Backend := ""
    Stack := "acme/dev"
    Config := []
    Secrets := []
    SecretRefs := []
    SecretsProvider := ""
    ProjectRepo := "https://example.com/project.git"
    GitAuthSecret := ""
    RepoDir := ""
    Commit := ""
    Branch := ""
    Refresh := false
    ExpectNoRefreshChanges := false
    DestroyOnFinalize := false
    RetryOnUpdateConflict := false }

/-- A spec with `RetryOnUpdateConflict` enabled. -/
def exampleRetrySpec : StackSpec :=
  { exampleSpecBase with RetryOnUpdateConflict := true }

/-- Witness for C2: with `RetryOnUpdateConflict = true`, the script
conflict, conflict, success produces exactly three attempts ending in
`succeeded`. -/
theorem claim_C2_retry_iff_conflict_and_flag_witness :
    reconcileStack exampleRetrySpec
        [some (.http 409), some (.http 409), none] =
      [StackUpdateConflict, StackUpdateConflict, StackUpdateSucceeded] :=
  claim_C2_retry_iff_conflict_and_flag.2.2.1 exampleRetrySpec rfl

/-- C4: in an attempt with `Refresh = true` and
`ExpectNoRefreshChanges = true` that reaches the refresh step and whose
refresh reports changes, the attempt terminates as `failed` with the
refresh-drift classification and the update is never invoked. -/
theorem claim_C4_refresh_drift_skips_update (spec : StackSpec) (eng : EngineRun)
    (hr : spec.Refresh = true) (hx : spec.ExpectNoRefreshChanges = true)
    (hi : eng.installError = none) (he : eng.envError = none)
    (hc : eng.configError = none) (hf : eng.refreshError = none)
    (hch : eng.refreshChanges = true) :
    runAttempt spec eng =
      { status := StackUpdateFailed, refreshDrift := true,
        updateCalled := false, outputs := none } := by
  simp [runAttempt, hi, he, hc, hr, hf, hx, hch]

/-- A refreshing spec that expects no refresh changes. -/
def exampleDriftSpec : StackSpec :=
  { exampleSpecBase with Refresh := true, ExpectNoRefreshChanges := true }

/-- An engine run whose refresh reports changes. -/
def exampleDriftRun : EngineRun :=
  { installError := none
    envError := none
    configError := none
    refreshError := none
    refreshChanges := true
    updateResponse := none
    updateOutputs := [("url", "https://example.com")] }

/-- Witness for C4: at a concrete spec and engine run with refresh drift,
the attempt fails with the drift classification and no update call. -/
theorem claim_C4_refresh_drift_skips_update_witness :
    runAttempt exampleDriftSpec exampleDriftRun =
      { status := StackUpdateFailed, refreshDrift := true,
        updateCalled := false, outputs := none } :=
  claim_C4_refresh_drift_skips_update exampleDriftSpec exampleDriftRun
    rfl rfl rfl rfl rfl rfl rfl

/-- C6: when both `Branch` and `Commit` are set, source preparation fails
with `ConfigError` and no checkout is attempted; when exactly one is set
that revision is used; when both are absent the default `master` branch is
used. -/
theorem claim_C6_branch_commit_mutual_exclusion (s : StackSpec) :
    (s.Branch ≠ "" → s.Commit ≠ "" →
      chooseRevision s = .error .configError ∧ checkoutAttempted s = false) ∧
    (s.Commit ≠ "" → s.Branch = "" →
      chooseRevision s = .ok (.commit s.Commit) ∧ checkoutAttempted s = true) ∧
    (s.Branch ≠ "" → s.Commit = "" →
      chooseRevision s = .ok (.branch s.Branch) ∧ checkoutAttempted s = true) ∧
    (s.Branch = "" → s.Commit = "" →
      chooseRevision s = .ok (.branch "master") ∧ checkoutAttempted s = true) := by
  refine ⟨?_, ?_, ?_, ?_⟩ <;> intro h1 h2 <;>
    simp [chooseRevision, checkoutAttempted, h1, h2]

/-- A spec with both a branch and a commit set. -/
def exampleBothRevSpec : StackSpec :=
  { exampleSpecBase with Branch := "main", Commit := "deadbeef" }

/-- Witness for C6: a concrete spec with both branch and commit set fails
with `ConfigError` and no checkout is attempted. -/
theorem claim_C6_branch_commit_mutual_exclusion_witness :
    chooseRevision exampleBothRevSpec = .error .configError ∧
      checkoutAttempted exampleBothRevSpec = false :=
  (claim_C6_branch_commit_mutual_exclusion exampleBothRevSpec).1
    (by decide) (by decide)

/-- C7: the config merge applies checked-in config, then legacy inline
maps, then reference-resolved maps, a later source overriding an earlier
one per key; merging checked-in `{a:1, b:2}`, legacy `{b:3}` and reference
`{a:4}` yields exactly `{a:4, b:3}`. -/
theorem claim_C7_merge_precedence :
    (∀ (ci l r : ConfigMap) (k v : String),
        (r k = some v → mergeConfig ci l r k = some v) ∧
        (r k = none → l k = some v → mergeConfig ci l r k = some v) ∧
        (r k = none → l k = none → mergeConfig ci l r k = ci k)) ∧
    (∀ k : String,
        mergeConfig (ConfigMap.ofList [("a", "1"), ("b", "2")])
            (ConfigMap.ofList [("b", "3")])
            (ConfigMap.ofList [("a", "4")]) k =
          ConfigMap.ofList [("a", "4"), ("b", "3")] k) := by
  constructor
  · intro ci l r k v
    refine ⟨?_, ?_, ?_⟩
    · intro hr; simp [mergeConfig, overrideWith, hr]
    · intro hr hl; simp [mergeConfig, overrideWith, hr, hl]
    · intro hr hl; simp [mergeConfig, overrideWith, hr, hl]
  · intro k
    by_cases ha : "a" = k
    · subst ha; decide
    · by_cases hb : "b" = k
      · subst hb; decide
      · simp [mergeConfig, overrideWith, ConfigMap.ofList, ha, hb]

/-- Witness for C7: the reference map's value for key `a` overrides the
checked-in value. -/
theorem claim_C7_merge_precedence_witness :
    mergeConfig (ConfigMap.ofList [("a", "1"), ("b", "2")])
        (ConfigMap.ofList [("b", "3")])
        (ConfigMap.ofList [("a", "4")]) "a" = some "4" :=
  (claim_C7_merge_precedence.1 (ConfigMap.ofList [("a", "1"), ("b", "2")])
      (ConfigMap.ofList [("b", "3")]) (ConfigMap.ofList [("a", "4")])
      "a" "4").1 (by decide)

/-- C9: resolution of a `ResourceRef` returns the backend's value when the
referenced entry is present, `notFound` (env, secret) or `ioError`
(filesystem) when it is absent, and a literal ref resolves to its embedded
value and never fails. -/
theorem claim_C9_resolve_present_absent (b : Backends) (n p ns nm k v : String) :
    resolveResourceRef b (NewLiteralResourceRef v) = .ok v ∧
    resolveResourceRef b (NewEnvResourceRef n) =
      (match b.env n with
       | some x => .ok x
       | none => .error .notFound) ∧
    resolveResourceRef b (NewFileSystemResourceRef p) =
      (match b.fs p with
       | some x => .ok x
       | none => .error .ioError) ∧
    resolveResourceRef b (NewSecretResourceRef ns nm k) =
      (match b.secret ns nm k with
       | some x => .ok x
       | none => .error .notFound) := by
  refine ⟨rfl, ?_, ?_, ?_⟩
  · cases h : b.env n <;>
      simp [resolveResourceRef, NewEnvResourceRef, ResourceSelectorEnv,
        ResourceSelectorFS, ResourceSelectorSecret, ResourceSelectorLiteral, h]
  · cases h : b.fs p <;>
      simp [resolveResourceRef, NewFileSystemResourceRef, ResourceSelectorEnv,
        ResourceSelectorFS, ResourceSelectorSecret, ResourceSelectorLiteral, h]
  · cases h : b.secret ns nm k <;>
      simp [resolveResourceRef, NewSecretResourceRef, ResourceSelectorEnv,
        ResourceSelectorFS, ResourceSelectorSecret, ResourceSelectorLiteral, h]

end PulumiOperator
